import Mathlib

/-!
# IntraRefer — verification of the subscription & application-quota core

Shallow embedding of the IntraRefer server's business logic
(`server/models/User.js`, `server/models/Payment.js`,
`server/models/Application.js`, `server/models/Referral.js`,
`server/routes/payments.js`, `server/middleware/auth.js`,
referral controller `getReferrals`).

Modelling conventions:
* JavaScript `Date` values and `Date.now()` are modelled as `Int`
  milliseconds since the JS epoch (1970-01-01, a Thursday), on a single
  uniform local timeline (no DST shifts).
* Mongoose documents are Lean structures; `findOne` / `findByIdAndUpdate`
  are explicit list lookups / updates on an explicit store.
* `crypto.createHmac('sha256', secret).update(m).digest('hex')` is an
  external collaborator and is passed in as a parameter
  `hmac : String → String → String` (secret, message ↦ hex digest).
* Fallible JS code (a thrown `TypeError`) is `Except String`.
-/

namespace IntraRefer

/-- Milliseconds per day. -/
def msPerDay : Int := 24 * 60 * 60 * 1000

inductive Role where
  | jobSeeker
  | referrer
  | admin
deriving DecidableEq, Repr

/-- `weeklyApplications` subdocument of the User schema (User.js lines 103–112). -/
structure WeeklyApplications where
  count : Nat
  weekStart : Int
deriving DecidableEq, Repr

/-- The fields of a User document that the claims touch
(`server/models/User.js`).  `password` holds the bcrypt hash. -/
structure User where
  id : Nat
  name : String
  email : String
  password : String
  role : Role
  skills : List String
  isSubscribed : Bool
  subscriptionStart : Option Int
  subscriptionEnd : Option Int
  subscriptionId : Option Nat
  weeklyApplications : WeeklyApplications
  isVerified : Bool
  isActive : Bool
deriving DecidableEq, Repr

/-- `userSchema.methods.isSubscriptionActive` (User.js lines 174–177):
`if (!this.isSubscribed || !this.subscriptionEnd) return false;
 return new Date() < this.subscriptionEnd;` -/
def isSubscriptionActive (now : Int) (u : User) : Bool :=
  match u.isSubscribed, u.subscriptionEnd with
  | false, _ => false
  | true, none => false
  | true, some e => decide (now < e)

/-- `getStartOfWeek` (User.js lines 180–187): returns midnight of the Monday
of the week containing `t`.  JS: `day = d.getDay()` (0 = Sunday),
`diff = d.getDate() - day + (day === 0 ? -6 : 1)`, `d.setDate(diff)`,
`d.setHours(0,0,0,0)`.  Net effect: go back `(day + 6) % 7` days and truncate
to midnight.  The JS epoch day (day index 0) is a Thursday, so
`getDay = (dayIndex + 4) mod 7`. -/
def getStartOfWeek (t : Int) : Int :=
  let dayIndex := t / msPerDay
  let day := (dayIndex + 4) % 7
  let offset := if day = 0 then 6 else day - 1
  (dayIndex - offset) * msPerDay

/-- Monday-anchored week index of a timestamp: two timestamps are in the same
Monday-anchored week iff their `weekIndex` agree (proved below).
(`/` and `%` on `Int` are Euclidean division, which agrees with JS calendar
arithmetic also before the epoch.) -/
def weekIndex (t : Int) : Int :=
  (t / msPerDay + 3) / 7

/-- `userSchema.methods.resetWeeklyCountIfNeeded` (User.js lines 190–202),
specialised to the `'weeklyApplications'` tracking field; returns the
`true`/`false` "a reset occurred" flag together with the updated document. -/
def resetWeeklyCountIfNeeded (now : Int) (u : User) : Bool × User :=
  let nowStartOfWeek := getStartOfWeek now
  let weekStartStartOfWeek := getStartOfWeek u.weeklyApplications.weekStart
  if nowStartOfWeek ≠ weekStartStartOfWeek then
    (true, { u with weeklyApplications := { count := 0, weekStart := now } })
  else
    (false, u)

/-- `WEEKLY_APPLICATION_LIMIT` (User.js line 210). -/
def WEEKLY_APPLICATION_LIMIT : Nat := 3

/-- `userSchema.methods.canApply` (User.js lines 206–212).  The method
mutates `this` (via `resetWeeklyCountIfNeeded`), so it returns the updated
in-memory document along with the boolean. -/
def canApply (now : Int) (u : User) : Bool × User :=
  if isSubscriptionActive now u then (true, u)
  else
    let u1 := (resetWeeklyCountIfNeeded now u).2
    (decide (u1.weeklyApplications.count < WEEKLY_APPLICATION_LIMIT), u1)

/-- The object shape returned by `getPublicProfile`: every User field except
`password` and `subscriptionId` (which are deleted). -/
structure PublicProfile where
  id : Nat
  name : String
  email : String
  role : Role
  skills : List String
  isSubscribed : Bool
  subscriptionStart : Option Int
  subscriptionEnd : Option Int
  weeklyApplications : WeeklyApplications
  isVerified : Bool
  isActive : Bool
deriving DecidableEq, Repr

/-- `userSchema.methods.getPublicProfile` (User.js lines 215–220):
`const userObject = this.toObject(); delete userObject.password;
 delete userObject.subscriptionId; return userObject;` -/
def getPublicProfile (u : User) : PublicProfile :=
  { id := u.id
    name := u.name
    email := u.email
    role := u.role
    skills := u.skills
    isSubscribed := u.isSubscribed
    subscriptionStart := u.subscriptionStart
    subscriptionEnd := u.subscriptionEnd
    weeklyApplications := u.weeklyApplications
    isVerified := u.isVerified
    isActive := u.isActive }

/-! ## Payment model (`server/models/Payment.js`) -/

inductive PaymentStatus where
  | created
  | attempted
  | paid
  | failed
  | cancelled
  | refunded
deriving DecidableEq, Repr

inductive SubscriptionType where
  | monthly
  | yearly
deriving DecidableEq, Repr

/-- The fields of a Payment document that the claims touch
(`server/models/Payment.js`).  `webhookData` holds the raw audit payload. -/
structure Payment where
  id : Nat
  userId : Nat
  razorpayOrderId : String
  razorpayPaymentId : Option String
  razorpaySignature : Option String
  amount : Int
  status : PaymentStatus
  subscriptionType : SubscriptionType
  subscriptionStart : Option Int
  subscriptionEnd : Option Int
  failureReason : Option String
  webhookReceived : Bool
  webhookData : Option String
deriving DecidableEq, Repr

/-- The document-local part of `paymentSchema.methods.markAsSuccessful`
(Payment.js lines 120–133): set gateway ids, `status = 'paid'`, and the
subscription window (`now + 30` days for monthly, `now + 365` days for
yearly, both as fixed millisecond durations). -/
def markAsSuccessfulPayment (now : Int) (paymentId : String)
    (signature : Option String) (p : Payment) : Payment :=
  { p with
    razorpayPaymentId := some paymentId
    razorpaySignature := signature
    status := .paid
    subscriptionStart := some now
    subscriptionEnd :=
      match p.subscriptionType with
      | .monthly => some (now + 30 * 24 * 60 * 60 * 1000)
      | .yearly => some (now + 365 * 24 * 60 * 60 * 1000) }

/-- The `User.findByIdAndUpdate(this.user, {...})` step of `markAsSuccessful`
(Payment.js lines 136–142). -/
def applyUserSubscriptionUpdate (p : Payment) (u : User) : User :=
  { u with
    isSubscribed := true
    subscriptionStart := p.subscriptionStart
    subscriptionEnd := p.subscriptionEnd
    subscriptionId := some p.id }

/-- `paymentSchema.methods.markAsSuccessful` (Payment.js lines 120–145) acting
on the payment document and the associated user document. -/
def markAsSuccessful (now : Int) (paymentId : String) (signature : Option String)
    (p : Payment) (u : User) : Payment × User :=
  let p1 := markAsSuccessfulPayment now paymentId signature p
  (p1, applyUserSubscriptionUpdate p1 u)

/-- `paymentSchema.methods.markAsFailed` (Payment.js lines 148–152). -/
def markAsFailed (reason : String) (p : Payment) : Payment :=
  { p with status := .failed, failureReason := some reason }

/-! ## Payments routes (`server/routes/payments.js`)

The database is an explicit store of payment and user documents; the HMAC
function is an explicit parameter standing for
`crypto.createHmac('sha256', RAZORPAY_KEY_SECRET)`. -/

/-- The persistent store the payment routes touch. -/
structure Store where
  payments : List Payment
  users : List User
deriving DecidableEq, Repr

/-- `Payment.findOne({ razorpayOrderId, user })` (payments.js lines 157–160). -/
def findPaymentByOrderAndUser (st : Store) (oid : String) (uid : Nat) : Option Payment :=
  st.payments.find? (fun p => p.razorpayOrderId == oid && p.userId == uid)

/-- `Payment.findOne({ razorpayOrderId })` (payments.js lines 248–250). -/
def findPaymentByOrder (st : Store) (oid : String) : Option Payment :=
  st.payments.find? (fun p => p.razorpayOrderId == oid)

/-- Persist an updated payment document (Mongoose `save` on a fetched doc). -/
def storePayment (st : Store) (pid : Nat) (p1 : Payment) : Store :=
  { st with payments := st.payments.map (fun q => if q.id = pid then p1 else q) }

/-- `User.findByIdAndUpdate(uid, f)` on the store. -/
def storeUserUpdate (st : Store) (uid : Nat) (f : User → User) : Store :=
  { st with users := st.users.map (fun u => if u.id = uid then f u else u) }

/-- Request body of `POST /api/payments/verify` (payments.js line 154). -/
structure VerifyRequest where
  razorpay_order_id : String
  razorpay_payment_id : String
  razorpay_signature : String
deriving DecidableEq, Repr

/-- The distinguishable responses of `POST /api/payments/verify`. -/
inductive VerifyResponse where
  /-- 400 `Validation failed` (a required body field is empty). -/
  | validationFailed
  /-- 404 `Payment record not found`. -/
  | notFound
  /-- 400 `Payment already verified`. -/
  | alreadyVerified
  /-- 400 `Payment verification failed` (signature mismatch). -/
  | verificationFailed
  /-- 200 `Payment verified successfully` with the subscription window. -/
  | success (subscriptionType : SubscriptionType)
      (startDate endDate : Option Int)
deriving DecidableEq, Repr

/-- Whether a verify response is the 200 success response. -/
def VerifyResponse.isSuccess : VerifyResponse → Bool
  | .success _ _ _ => true
  | _ => false

/-- `POST /api/payments/verify` (payments.js lines 138–203): `notEmpty`
validators, payment lookup by `(razorpayOrderId, user)`, the
already-`paid` guard, the HMAC gate over `orderId + "|" + paymentId`, then
either `markAsFailed('Invalid signature')` or `markAsSuccessful`. -/
def verify (hmac : String → String → String) (secret : String) (now : Int)
    (uid : Nat) (req : VerifyRequest) (st : Store) : VerifyResponse × Store :=
  if req.razorpay_order_id = "" ∨ req.razorpay_payment_id = "" ∨
      req.razorpay_signature = "" then
    (.validationFailed, st)
  else
    match findPaymentByOrderAndUser st req.razorpay_order_id uid with
    | none => (.notFound, st)
    | some payment =>
      if payment.status = .paid then (.alreadyVerified, st)
      else
        let expectedSignature :=
          hmac secret (req.razorpay_order_id ++ "|" ++ req.razorpay_payment_id)
        if expectedSignature ≠ req.razorpay_signature then
          (.verificationFailed,
            storePayment st payment.id (markAsFailed "Invalid signature" payment))
        else
          let p1 := markAsSuccessfulPayment now req.razorpay_payment_id
            (some req.razorpay_signature) payment
          let st1 := storeUserUpdate (storePayment st payment.id p1) payment.userId
            (applyUserSubscriptionUpdate p1)
          (.success p1.subscriptionType p1.subscriptionStart p1.subscriptionEnd, st1)

/-- `event.payload.payment.entity` fields used by `handlePaymentCaptured`;
`raw` stands for the stored audit payload. -/
structure CapturedData where
  order_id : String
  id : String
  raw : String
deriving DecidableEq, Repr

/-- `event.payload.payment.entity` fields used by `handlePaymentFailed`. -/
structure FailedData where
  order_id : String
  error_description : Option String
  raw : String
deriving DecidableEq, Repr

/-- `handlePaymentCaptured` (payments.js lines 246–261): look up by order id;
if found and not already `paid`, run `markAsSuccessful` (with a `null`
client signature), then set `webhookReceived`/`webhookData` and save. -/
def handlePaymentCaptured (now : Int) (data : CapturedData) (st : Store) : Store :=
  match findPaymentByOrder st data.order_id with
  | none => st
  | some payment =>
    if payment.status ≠ .paid then
      let p1 := markAsSuccessfulPayment now data.id none payment
      let st1 := storeUserUpdate (storePayment st payment.id p1) payment.userId
        (applyUserSubscriptionUpdate p1)
      storePayment st1 payment.id
        { p1 with webhookReceived := true, webhookData := some data.raw }
    else st

/-- `handlePaymentFailed` (payments.js lines 264–279). -/
def handlePaymentFailed (data : FailedData) (st : Store) : Store :=
  match findPaymentByOrder st data.order_id with
  | none => st
  | some payment =>
    if payment.status ≠ .failed then
      let p1 := markAsFailed (data.error_description.getD "Payment failed") payment
      storePayment st payment.id
        { p1 with webhookReceived := true, webhookData := some data.raw }
    else st

/-- Parsed webhook events (`JSON.parse(body)` then `switch (event.event)`). -/
inductive WebhookEvent where
  | paymentCaptured (data : CapturedData)
  | paymentFailed (data : FailedData)
  | other (name : String)
deriving DecidableEq, Repr

/-- The distinguishable responses of `POST /api/payments/webhook`. -/
inductive WebhookResponse where
  /-- 400 `Invalid webhook signature`. -/
  | invalidSignature
  /-- 500 `Webhook processing error` (`JSON.parse` threw). -/
  | processingError
  /-- 200 `{status: "ok"}`. -/
  | ok
deriving DecidableEq, Repr

/-- `POST /api/payments/webhook` (payments.js lines 208–243): recompute
`HMAC-SHA256(secret, rawBody)`, compare to the `X-Razorpay-Signature`
header (absent header compares unequal), then parse and dispatch.
`parseEvent` stands for `JSON.parse` (`none` = parse failure → catch). -/
def webhook (hmac : String → String → String) (secret : String)
    (parseEvent : String → Option WebhookEvent) (now : Int)
    (headerSignature : Option String) (rawBody : String) (st : Store) :
    WebhookResponse × Store :=
  let expectedSignature := hmac secret rawBody
  if headerSignature ≠ some expectedSignature then (.invalidSignature, st)
  else
    match parseEvent rawBody with
    | none => (.processingError, st)
    | some (.paymentCaptured data) => (.ok, handlePaymentCaptured now data st)
    | some (.paymentFailed data) => (.ok, handlePaymentFailed data st)
    | some (.other _) => (.ok, st)

/-! ## Referral model (`server/models/Referral.js`) -/

inductive ReferralStatus where
  | draft
  | active
  | closed
  | expired
deriving DecidableEq, Repr

/-- The fields of a Referral document that the claims touch
(`server/models/Referral.js`). -/
structure Referral where
  id : Nat
  referrerId : Nat
  title : String
  company : String
  skills : List String
  status : ReferralStatus
  isActive : Bool
  applicationDeadline : Option Int
  applicationCount : Nat
  views : Nat
deriving DecidableEq, Repr

/-- `referralSchema.methods.isExpired` (Referral.js lines 381–384):
`if (!this.applicationDeadline) return false;
 return new Date() > this.applicationDeadline;` -/
def isExpired (now : Int) (r : Referral) : Bool :=
  match r.applicationDeadline with
  | none => false
  | some deadline => decide (deadline < now)

/-- `referralSchema.pre('save')` (Referral.js lines 415–420): rewrite an
expired `active` referral to `expired` before persisting. -/
def referralPreSave (now : Int) (r : Referral) : Referral :=
  if isExpired now r = true ∧ r.status = .active then { r with status := .expired }
  else r

/-- The read-time correction in the referral controller's `getReferrals`
(lazy expiry): each returned referral that is expired and still `active`
is reported with status `expired` without being persisted. -/
def getReferralsView (now : Int) (refs : List Referral) : List Referral :=
  refs.map (fun ref =>
    if isExpired now ref = true ∧ ref.status = .active then { ref with status := .expired }
    else ref)

/-! ## Match scoring (`calculateMatchScore`, Referral.js lines 399–412)

JS `String.prototype.includes` is embedded at the character-list level. -/

/-- Whether `p` is an initial run of `l` (character lists). -/
def startsWithCh : List Char → List Char → Bool
  | _, [] => true
  | [], _ :: _ => false
  | a :: as, b :: bs => a == b && startsWithCh as bs

/-- Whether `p` occurs contiguously inside `l` (character lists). -/
def containsCh : List Char → List Char → Bool
  | [], p => startsWithCh [] p
  | a :: as, p => startsWithCh (a :: as) p || containsCh as p

/-- JS `s.includes(sub)`: `sub` occurs as a contiguous substring of `s`. -/
def jsIncludes (s sub : String) : Bool :=
  containsCh s.data sub.data

/-- JS `s.toLowerCase()`, embedded as a character-wise lowercase map. -/
def toLowerStr (s : String) : String :=
  ⟨s.data.map Char.toLower⟩

/-- `Math.round(num / den)` for natural `num` and positive natural `den`,
computed exactly (`⌊num/den + 1/2⌋ = (2*num + den) / (2*den)`); the source
computes the same value in JS floating point. -/
def jsRound (num den : Nat) : Nat :=
  (2 * num + den) / (2 * den)

/-- `referralSchema.methods.calculateMatchScore` (Referral.js lines 399–412):
lowercase both lists, count a referral skill as matching when some seeker
skill contains it or is contained in it, return
`Math.round(matching/total * 100)` (0 when the referral has no skills).
The route always passes an array for `jobSeekerSkills`, so the JS null
guard on it is not modelled. -/
def calculateMatchScore (skills jobSeekerSkills : List String) : Nat :=
  if skills.length = 0 then 0
  else
    let referralSkills := skills.map toLowerStr
    let seekerSkills := jobSeekerSkills.map toLowerStr
    let matchingSkills := referralSkills.filter (fun skill =>
      seekerSkills.any (fun seekerSkill =>
        jsIncludes seekerSkill skill || jsIncludes skill seekerSkill))
    jsRound (matchingSkills.length * 100) referralSkills.length

/-- Spec-side reading of the matched-skill condition: the (lowercased)
referral skill is a substring of, or contains as a substring, some
(lowercased) candidate skill. -/
def SpecMatched (seekerSkills : List String) (skill : String) : Prop :=
  ∃ c ∈ seekerSkills, skill.data <:+: c.data ∨ c.data <:+: skill.data

instance specMatchedDecidable (seekerSkills : List String) (skill : String) :
    Decidable (SpecMatched seekerSkills skill) := by
  unfold SpecMatched
  infer_instance

/-! ## Application creation (`server/models/Application.js`,
`server/middleware/auth.js`) -/

/-- The call `user.resetWeeklyApplicationsIfNeeded()` in the second
`applicationSchema.pre('save')` hook (Application.js line 202).  `User.js`
defines `resetWeeklyCountIfNeeded` (and no `resetWeeklyApplicationsIfNeeded`),
so the property lookup yields `undefined` and the call throws a `TypeError`,
which the hook's `try/catch` swallows. -/
def resetWeeklyApplicationsIfNeeded (_u : User) : Except String User :=
  .error "TypeError: user.resetWeeklyApplicationsIfNeeded is not a function"

/-- The `try` block of the second `applicationSchema.pre('save')` hook
(Application.js lines 197–205): on a fresh fetch of the job seeker, if the
subscription is not active, reset-if-new-week then increment the weekly
count and save. -/
def weeklyCountHookTry (now : Int) (u : User) : Except String User :=
  if isSubscriptionActive now u then .ok u
  else do
    let u1 ← resetWeeklyApplicationsIfNeeded u
    .ok { u1 with weeklyApplications :=
      { u1.weeklyApplications with count := u1.weeklyApplications.count + 1 } }

/-- The second `applicationSchema.pre('save')` hook (Application.js lines
195–211): errors are caught, logged, and ignored (`next()` still runs). -/
def applicationWeeklyCountHook (now : Int) (u : User) : User :=
  match weeklyCountHookTry now u with
  | .ok u1 => u1
  | .error _ => u

/-- The first `applicationSchema.pre('save')` hook (Application.js lines
179–192): `Referral.findByIdAndUpdate(.., { $inc: { applicationCount: 1 } })`. -/
def incApplicationCount (r : Referral) : Referral :=
  { r with applicationCount := r.applicationCount + 1 }

/-- Outcome of the `checkApplicationLimit` middleware: the 403 quota
response carries `limitReached: true` / `upgradeRequired: true`, a
machine-readable flag distinct from the authorization responses
(401 `Authentication required`, 403 `subscriptionRequired: true`). -/
inductive LimitCheck where
  | proceed
  | limitReached
deriving DecidableEq, Repr

/-- `checkApplicationLimit` (auth.js lines 95–125) for an authenticated
user: non-job-seekers and active subscribers pass; otherwise `canApply`
decides.  (The in-memory mutation `canApply` makes on `req.user` is never
saved, so the persistent document is unchanged.) -/
def checkApplicationLimit (now : Int) (u : User) : LimitCheck :=
  if u.role ≠ .jobSeeker then .proceed
  else if isSubscriptionActive now u then .proceed
  else if (canApply now u).1 = false then .limitReached
  else .proceed

/-- The documents touched by one application-creation request: the job
seeker's persisted document, the target referral, and the number of stored
Application records. -/
structure AppCreationState where
  user : User
  referral : Referral
  applications : Nat
deriving DecidableEq, Repr

inductive CreateResult where
  | created
  | rejectedLimit
deriving DecidableEq, Repr

/-- One `POST /api/applications` attempt as the code runs it: the
`checkApplicationLimit` middleware gates the request; on pass, the
`Application` document is saved, which runs the two `pre('save')` hooks
(referral counter `$inc`, weekly-count hook) and inserts the record. -/
def attemptCreateApplication (now : Int) (s : AppCreationState) :
    CreateResult × AppCreationState :=
  match checkApplicationLimit now s.user with
  | .limitReached => (.rejectedLimit, s)
  | .proceed =>
    (.created,
      { user := applicationWeeklyCountHook now s.user
        referral := incApplicationCount s.referral
        applications := s.applications + 1 })

/-! ## Concrete fixtures used by witnesses and boundary checks -/

/-- Monday 1970-01-12 00:00:00 (day index 11 is a Monday). -/
def mondayMs : Int := 11 * 86400000

/-- Thursday 1970-01-08 12:00:00, inside the week ending Sunday 1970-01-11. -/
def thursdayNoonMs : Int := 7 * 86400000 + 43200000

/-- Sunday 1970-01-11 23:59:59, last second of the week of `thursdayNoonMs`. -/
def sundayLateMs : Int := 10 * 86400000 + 86399000

/-- A free (unsubscribed) job seeker whose weekly window started on
`thursdayNoonMs`. -/
def freeSeeker : User :=
  { id := 1
    name := "Asha"
    email := "asha@example.com"
    password := "bcrypt-hash-1"
    role := .jobSeeker
    skills := ["react"]
    isSubscribed := false
    subscriptionStart := none
    subscriptionEnd := none
    subscriptionId := none
    weeklyApplications := { count := 0, weekStart := thursdayNoonMs }
    isVerified := false
    isActive := true }

/-- A monthly Payment in status `created`, belonging to `freeSeeker`. -/
def createdPayment : Payment :=
  { id := 101
    userId := 1
    razorpayOrderId := "order_1"
    razorpayPaymentId := none
    razorpaySignature := none
    amount := 9900
    status := .created
    subscriptionType := .monthly
    subscriptionStart := none
    subscriptionEnd := none
    failureReason := none
    webhookReceived := false
    webhookData := none }

/-- The same order after a successful verification (status `paid`). -/
def paidPayment : Payment :=
  { createdPayment with
    status := .paid
    razorpayPaymentId := some "pay_1"
    subscriptionStart := some mondayMs
    subscriptionEnd := some (mondayMs + 30 * 86400000) }

/-- A store holding one `created` payment and its user. -/
def createdStore : Store := { payments := [createdPayment], users := [freeSeeker] }

/-- A store holding the already-`paid` payment and its user. -/
def paidStore : Store := { payments := [paidPayment], users := [freeSeeker] }

/-- An active referral with a deadline already in the past at `mondayMs`. -/
def staleReferral : Referral :=
  { id := 201
    referrerId := 2
    title := "Backend Engineer"
    company := "Acme"
    skills := ["react", "node"]
    status := .active
    isActive := true
    applicationDeadline := some thursdayNoonMs
    applicationCount := 0
    views := 0 }

/-- Initial state for the quota scenario: a free job seeker with a fresh
weekly window at `mondayMs`, an open referral, and no stored applications. -/
def quotaState : AppCreationState :=
  { user := { freeSeeker with weeklyApplications := { count := 0, weekStart := mondayMs } }
    referral := { staleReferral with applicationDeadline := none }
    applications := 0 }

/-! ## Helper lemmas -/

/-- `getStartOfWeek` in closed form: the Monday of the week of `t` falls on
day index `7 * weekIndex t - 3`. -/
theorem getStartOfWeek_eq (t : Int) :
    getStartOfWeek t = (7 * weekIndex t - 3) * msPerDay := by
  have hms : msPerDay = 86400000 := by norm_num [msPerDay]
  simp only [getStartOfWeek, weekIndex, hms]
  by_cases hz : (t / 86400000 + 4) % 7 = 0
  · rw [if_pos hz]; omega
  · rw [if_neg hz]; omega

/-- Two timestamps share the Monday-anchored week start iff they share the
Monday-anchored week index. -/
theorem getStartOfWeek_eq_iff (s t : Int) :
    getStartOfWeek s = getStartOfWeek t ↔ weekIndex s = weekIndex t := by
  rw [getStartOfWeek_eq, getStartOfWeek_eq]
  unfold msPerDay
  constructor
  · intro h; omega
  · intro h; rw [h]

/-- `startsWithCh l p` decides list-prefix. -/
theorem startsWithCh_iff (p l : List Char) : startsWithCh l p = true ↔ p <+: l := by
  induction p generalizing l with
  | nil => simp [startsWithCh]
  | cons b bs ih =>
    cases l with
    | nil => simp [startsWithCh, List.prefix_nil]
    | cons a as =>
      simp only [startsWithCh, Bool.and_eq_true, beq_iff_eq, List.cons_prefix_cons, ih]
      exact and_congr_left fun _ => eq_comm

/-- `containsCh l p` decides contiguous-substring (list infix). -/
theorem containsCh_iff (l p : List Char) : containsCh l p = true ↔ p <:+: l := by
  induction l with
  | nil => simp [containsCh, startsWithCh_iff, List.infix_nil, List.prefix_nil]
  | cons a as ih =>
    simp [containsCh, startsWithCh_iff, ih, List.infix_cons_iff]

/-- JS `s.includes(sub)` decides substring containment. -/
theorem jsIncludes_iff (s sub : String) :
    jsIncludes s sub = true ↔ sub.data <:+: s.data :=
  containsCh_iff s.data sub.data

/-- The code's matched test for one referral skill coincides with the
bidirectional-substring condition. -/
theorem matched_iff (seekerSkills : List String) (skill : String) :
    (seekerSkills.any (fun seekerSkill =>
      jsIncludes seekerSkill skill || jsIncludes skill seekerSkill)) = true ↔
    SpecMatched seekerSkills skill := by
  simp [List.any_eq_true, jsIncludes_iff, SpecMatched]

/-- `jsRound` computes the exact rational rounding `round (num / den)`. -/
theorem jsRound_eq_round (num den : Nat) (h : 0 < den) :
    (jsRound num den : ℤ) = round ((num : ℚ) / den) := by
  have hden : (0:ℚ) < (den:ℚ) := by exact_mod_cast h
  have h2den : (0:ℚ) < ((2 * den : ℕ) : ℚ) := by
    have : 0 < 2 * den := by omega
    exact_mod_cast this
  rw [round_eq]
  have hq : (num : ℚ) / den + 1 / 2 = ((2 * num + den : ℕ) : ℚ) / ((2 * den : ℕ) : ℚ) := by
    push_cast
    field_simp
    ring
  rw [hq]
  symm
  rw [Int.floor_eq_iff]
  constructor
  · rw [le_div_iff₀ h2den]
    have hmul : jsRound num den * (2 * den) ≤ 2 * num + den := by
      unfold jsRound
      exact Nat.div_mul_le_self _ _
    push_cast
    exact_mod_cast hmul
  · rw [div_lt_iff₀ h2den]
    have hmul : 2 * num + den < (jsRound num den + 1) * (2 * den) := by
      unfold jsRound
      calc 2 * num + den
          = 2 * den * ((2 * num + den) / (2 * den)) + (2 * num + den) % (2 * den) :=
            (Nat.div_add_mod _ _).symm
        _ < 2 * den * ((2 * num + den) / (2 * den)) + 2 * den := by
            have := Nat.mod_lt (2 * num + den) (show 0 < 2 * den by omega)
            omega
        _ = ((2 * num + den) / (2 * den) + 1) * (2 * den) := by ring
    push_cast
    exact_mod_cast hmul

/-! ## Claim theorems -/

/-- C1: `markAsSuccessful` at time `now` sets the payment's status to
`paid` and its window to `[now, now + 30 days]` for a monthly
(`[now, now + 365 days]` for a yearly) subscription as fixed wall-clock
durations, then updates the associated user to `isSubscribed = true` with
the payment's window and `subscriptionId` = the payment's id. -/
theorem markAsSuccessful_sets_subscription (now : Int) (paymentId : String)
    (signature : Option String) (p : Payment) (u : User) :
    ((markAsSuccessful now paymentId signature p u).1.status = .paid ∧
     (markAsSuccessful now paymentId signature p u).1.subscriptionStart = some now ∧
     (p.subscriptionType = .monthly →
       (markAsSuccessful now paymentId signature p u).1.subscriptionEnd =
         some (now + 30 * msPerDay)) ∧
     (p.subscriptionType = .yearly →
       (markAsSuccessful now paymentId signature p u).1.subscriptionEnd =
         some (now + 365 * msPerDay))) ∧
    ((markAsSuccessful now paymentId signature p u).2.isSubscribed = true ∧
     (markAsSuccessful now paymentId signature p u).2.subscriptionStart =
       (markAsSuccessful now paymentId signature p u).1.subscriptionStart ∧
     (markAsSuccessful now paymentId signature p u).2.subscriptionEnd =
       (markAsSuccessful now paymentId signature p u).1.subscriptionEnd ∧
     (markAsSuccessful now paymentId signature p u).2.subscriptionId = some p.id) := by
  refine ⟨⟨rfl, rfl, ?_, ?_⟩, rfl, rfl, rfl, rfl⟩ <;>
    intro h <;>
    simp [markAsSuccessful, markAsSuccessfulPayment, h, msPerDay]

/-- Witness for C1: a concrete monthly payment gets exactly `now + 30×24h`. -/
theorem markAsSuccessful_sets_subscription_witness :
    (markAsSuccessful mondayMs "pay_1" (some "sig") createdPayment freeSeeker).1.subscriptionEnd =
      some (mondayMs + 30 * msPerDay) :=
  (markAsSuccessful_sets_subscription mondayMs "pay_1" (some "sig")
    createdPayment freeSeeker).1.2.2.1 (by rfl)

/-- C6 (code bug exhibit): saving a new Application increments the parent
referral's `applicationCount` by 1, but the job seeker's
`weeklyApplications.count` is NEVER incremented: the second `pre('save')`
hook calls `user.resetWeeklyApplicationsIfNeeded()`, a method `User.js`
does not define (it defines `resetWeeklyCountIfNeeded`), so the hook throws
a `TypeError` that its own `try/catch` swallows, leaving the user document
untouched — contradicting the claimed count increment for unsubscribed
seekers. -/
theorem application_hooks_never_increment_weekly_count (now : Int) (u : User)
    (r : Referral) :
    (incApplicationCount r).applicationCount = r.applicationCount + 1 ∧
    applicationWeeklyCountHook now u = u := by
  refine ⟨rfl, ?_⟩
  unfold applicationWeeklyCountHook weeklyCountHookTry resetWeeklyApplicationsIfNeeded
  by_cases h : isSubscriptionActive now u
  · rw [if_pos h]
  · rw [if_neg h]
    rfl

/-- C7: a webhook whose `X-Razorpay-Signature` header differs from
`HMAC-SHA256(secret, rawBody)` is rejected with `Invalid webhook signature`
and the store is untouched: no payment is located, modified, or marked
`webhookReceived`. -/
theorem webhook_rejects_invalid_signature (hmac : String → String → String)
    (secret : String) (parseEvent : String → Option WebhookEvent) (now : Int)
    (headerSignature : Option String) (rawBody : String) (st : Store)
    (h : headerSignature ≠ some (hmac secret rawBody)) :
    webhook hmac secret parseEvent now headerSignature rawBody st =
      (.invalidSignature, st) := by
  unfold webhook
  rw [if_pos h]

/-- Witness for C7: a concrete tampered webhook is rejected unchanged. -/
theorem webhook_rejects_invalid_signature_witness :
    webhook (fun _ m => m) "secret" (fun _ => none) mondayMs (some "forged")
      "payload" createdStore = (.invalidSignature, createdStore) :=
  webhook_rejects_invalid_signature (fun _ m => m) "secret" (fun _ => none)
    mondayMs (some "forged") "payload" createdStore (by decide)

/-- C10: `getPublicProfile` (the user payload of the registration, login and
payment-verification responses) agrees with the stored document on every
field other than `password` and `subscriptionId` — which the
`PublicProfile` shape does not carry — and is therefore independent of the
stored password hash and subscription reference: rewriting either field
leaves the public profile unchanged. -/
theorem getPublicProfile_excludes_secrets (u : User) (pw : String)
    (sid : Option Nat) :
    ((getPublicProfile u).id = u.id ∧
     (getPublicProfile u).name = u.name ∧
     (getPublicProfile u).email = u.email ∧
     (getPublicProfile u).role = u.role ∧
     (getPublicProfile u).skills = u.skills ∧
     (getPublicProfile u).isSubscribed = u.isSubscribed ∧
     (getPublicProfile u).subscriptionStart = u.subscriptionStart ∧
     (getPublicProfile u).subscriptionEnd = u.subscriptionEnd ∧
     (getPublicProfile u).weeklyApplications = u.weeklyApplications ∧
     (getPublicProfile u).isVerified = u.isVerified ∧
     (getPublicProfile u).isActive = u.isActive) ∧
    getPublicProfile { u with password := pw } = getPublicProfile u ∧
    getPublicProfile { u with subscriptionId := sid } = getPublicProfile u :=
  ⟨⟨rfl, rfl, rfl, rfl, rfl, rfl, rfl, rfl, rfl, rfl, rfl⟩, rfl, rfl⟩

/-- C5: `canApply` returns `true` (leaving the document unchanged) whenever
the subscription is active; otherwise it resets the weekly counter to 0 and
`weekStart` to `now` exactly when the Monday-anchored week start of `now`
differs from that of the stored `weekStart` (equivalently, when the
Monday-anchored week indices differ), then returns `count < 3`; at the week
boundary, Sunday 23:59:59 observes no reset while Monday 00:00:00 does. -/
theorem canApply_quota_spec (now : Int) (u : User) :
    (isSubscriptionActive now u = true → canApply now u = (true, u)) ∧
    (isSubscriptionActive now u = false →
      (getStartOfWeek now ≠ getStartOfWeek u.weeklyApplications.weekStart →
        canApply now u =
          (true, { u with weeklyApplications := { count := 0, weekStart := now } })) ∧
      (getStartOfWeek now = getStartOfWeek u.weeklyApplications.weekStart →
        canApply now u = (decide (u.weeklyApplications.count < 3), u))) ∧
    (getStartOfWeek now = getStartOfWeek u.weeklyApplications.weekStart ↔
      weekIndex now = weekIndex u.weeklyApplications.weekStart) ∧
    ((resetWeeklyCountIfNeeded sundayLateMs freeSeeker).1 = false ∧
     (resetWeeklyCountIfNeeded mondayMs freeSeeker).1 = true) := by
  refine ⟨?_, ?_, getStartOfWeek_eq_iff _ _, by decide, by decide⟩
  · intro h
    unfold canApply
    rw [if_pos h]
  · intro h
    constructor
    · intro hne
      unfold canApply
      rw [if_neg (by simp [h])]
      unfold resetWeeklyCountIfNeeded
      rw [if_pos hne]
      rfl
    · intro heq
      unfold canApply
      rw [if_neg (by simp [h])]
      unfold resetWeeklyCountIfNeeded
      rw [if_neg (not_not_intro heq)]
      rfl

/-- Witness for C5: at Monday 00:00:00 an inactive user whose stored
`weekStart` lies in the previous week is reset and allowed to apply. -/
theorem canApply_quota_spec_witness :
    canApply mondayMs freeSeeker =
      (true, { freeSeeker with weeklyApplications := { count := 0, weekStart := mondayMs } }) :=
  ((canApply_quota_spec mondayMs freeSeeker).2.1 (by decide)).1 (by decide)

/-- C8: `isExpired` holds iff a deadline is set and lies strictly in the
past; the referral `pre('save')` hook rewrites an expired `active` referral
to `expired` before persisting (and touches nothing else); and the list
endpoint's in-memory correction never returns a referral that is both
expired and `active`. -/
theorem referral_expiry_lazy (now : Int) (r : Referral) (refs : List Referral) :
    (isExpired now r = true ↔ ∃ d, r.applicationDeadline = some d ∧ d < now) ∧
    (isExpired now r = true → r.status = .active →
      referralPreSave now r = { r with status := .expired }) ∧
    (¬(isExpired now r = true ∧ r.status = .active) → referralPreSave now r = r) ∧
    (∀ ref ∈ getReferralsView now refs, ref.status = .active →
      isExpired now ref = false) := by
  refine ⟨?_, ?_, ?_, ?_⟩
  · unfold isExpired
    rcases hd : r.applicationDeadline with _ | d <;> simp [hd]
  · intro h1 h2
    unfold referralPreSave
    rw [if_pos ⟨h1, h2⟩]
  · intro h
    unfold referralPreSave
    rw [if_neg h]
  · intro ref href hact
    unfold getReferralsView at href
    rcases List.mem_map.mp href with ⟨r0, hr0, heq⟩
    by_cases hc : isExpired now r0 = true ∧ r0.status = .active
    · rw [if_pos hc] at heq
      subst heq
      simp at hact
    · rw [if_neg hc] at heq
      subst heq
      cases hex : isExpired now r0 with
      | false => rfl
      | true => exact absurd ⟨hex, hact⟩ hc

/-- Witness for C8: a referral with a passed deadline and status `active` is
persisted as `expired` by the save hook. -/
theorem referral_expiry_lazy_witness :
    referralPreSave mondayMs staleReferral = { staleReferral with status := .expired } :=
  (referral_expiry_lazy mondayMs staleReferral []).2.1 (by decide) (by decide)

/-- C2: a verify request whose signature differs from
`HMAC-SHA256(secret, orderId + "|" + paymentId)` is always rejected (never
the success response) and never touches any user's subscription state; and
whenever the request reaches the signature gate (well-formed body, payment
found, not already `paid`), the payment is rewritten to status `failed`
with failure reason `Invalid signature`. -/
theorem verify_signature_mismatch_rejects (hmac : String → String → String)
    (secret : String) (now : Int) (uid : Nat) (req : VerifyRequest) (st : Store)
    (hsig : req.razorpay_signature ≠
      hmac secret (req.razorpay_order_id ++ "|" ++ req.razorpay_payment_id)) :
    ((verify hmac secret now uid req st).1.isSuccess = false ∧
     (verify hmac secret now uid req st).2.users = st.users) ∧
    (∀ payment,
      findPaymentByOrderAndUser st req.razorpay_order_id uid = some payment →
      payment.status ≠ .paid →
      req.razorpay_order_id ≠ "" → req.razorpay_payment_id ≠ "" →
      req.razorpay_signature ≠ "" →
      verify hmac secret now uid req st =
        (.verificationFailed,
          storePayment st payment.id (markAsFailed "Invalid signature" payment)) ∧
      (markAsFailed "Invalid signature" payment).status = .failed ∧
      (markAsFailed "Invalid signature" payment).failureReason =
        some "Invalid signature") := by
  have hne : hmac secret (req.razorpay_order_id ++ "|" ++ req.razorpay_payment_id) ≠
      req.razorpay_signature := fun hh => hsig hh.symm
  constructor
  · unfold verify
    by_cases hv : req.razorpay_order_id = "" ∨ req.razorpay_payment_id = "" ∨
        req.razorpay_signature = ""
    · rw [if_pos hv]
      exact ⟨rfl, rfl⟩
    · rw [if_neg hv]
      cases hfind : findPaymentByOrderAndUser st req.razorpay_order_id uid with
      | none =>
        simp only [hfind]
        exact ⟨rfl, trivial⟩
      | some payment =>
        simp only [hfind]
        by_cases hpaid : payment.status = .paid
        · rw [if_pos hpaid]
          exact ⟨rfl, rfl⟩
        · rw [if_neg hpaid, if_pos hne]
          exact ⟨rfl, rfl⟩
  · intro payment hfind hpaid ho hp hs
    unfold verify
    rw [if_neg (by push_neg; exact ⟨ho, hp, hs⟩)]
    simp only [hfind]
    rw [if_neg hpaid, if_pos hne]
    exact ⟨rfl, rfl, rfl⟩

/-- Witness for C2: a concrete tampered verify call marks the payment
failed with reason `Invalid signature`. -/
theorem verify_signature_mismatch_rejects_witness :
    verify (fun _ _ => "expected") "k" mondayMs 1
      { razorpay_order_id := "order_1", razorpay_payment_id := "pay_1",
        razorpay_signature := "wrong" } createdStore =
      (.verificationFailed,
        storePayment createdStore createdPayment.id
          (markAsFailed "Invalid signature" createdPayment)) :=
  ((verify_signature_mismatch_rejects (fun _ _ => "expected") "k" mondayMs 1
      { razorpay_order_id := "order_1", razorpay_payment_id := "pay_1",
        razorpay_signature := "wrong" } createdStore (by decide)).2 createdPayment
    (by decide) (by decide) (by decide) (by decide) (by decide)).1

/-- C3: both reconciliation paths are idempotent on an already-`paid`
payment: a second verify call for the same order is rejected with the
`Payment already verified` signal and leaves the store untouched, and a
`payment.captured` webhook for the same order is a complete no-op —
neither path re-runs activation or re-dates the subscription window. -/
theorem already_paid_reconciliation_noop (hmac : String → String → String)
    (secret : String) (now : Int) (uid : Nat) (req : VerifyRequest) (st : Store)
    (payment p2 : Payment) (data : CapturedData)
    (hfind : findPaymentByOrderAndUser st req.razorpay_order_id uid = some payment)
    (hpaid : payment.status = .paid)
    (ho : req.razorpay_order_id ≠ "") (hp : req.razorpay_payment_id ≠ "")
    (hs : req.razorpay_signature ≠ "")
    (hfind2 : findPaymentByOrder st data.order_id = some p2)
    (hpaid2 : p2.status = .paid) :
    verify hmac secret now uid req st = (.alreadyVerified, st) ∧
    handlePaymentCaptured now data st = st := by
  constructor
  · unfold verify
    rw [if_neg (by push_neg; exact ⟨ho, hp, hs⟩)]
    simp only [hfind]
    rw [if_pos hpaid]
  · unfold handlePaymentCaptured
    simp only [hfind2]
    rw [if_neg (not_not_intro hpaid2)]

/-- Witness for C3: a second verify and a duplicate captured-webhook on a
concrete paid payment both leave the store unchanged. -/
theorem already_paid_reconciliation_noop_witness :
    verify (fun _ _ => "x") "k" mondayMs 1
      { razorpay_order_id := "order_1", razorpay_payment_id := "pay_1",
        razorpay_signature := "s" } paidStore = (.alreadyVerified, paidStore) ∧
    handlePaymentCaptured mondayMs
      { order_id := "order_1", id := "pay_9", raw := "{}" } paidStore = paidStore :=
  already_paid_reconciliation_noop (fun _ _ => "x") "k" mondayMs 1
    { razorpay_order_id := "order_1", razorpay_payment_id := "pay_1",
      razorpay_signature := "s" } paidStore paidPayment paidPayment
    { order_id := "order_1", id := "pay_9", raw := "{}" }
    (by decide) (by decide) (by decide) (by decide) (by decide) (by decide)
    (by decide)

/-- C4 (code bug exhibit): starting from a free job seeker with a fresh
week, four consecutive application-creation attempts in the same
Monday-anchored week ALL succeed — the fourth is not rejected — because the
weekly counter is never incremented (the Application `pre('save')` hook
calls the nonexistent `resetWeeklyApplicationsIfNeeded` and swallows the
resulting `TypeError`), contradicting the claimed quota rejection after 3
creations. -/
theorem fourth_application_not_rejected :
    ((attemptCreateApplication mondayMs quotaState).1 = .created ∧
     (attemptCreateApplication mondayMs
        (attemptCreateApplication mondayMs quotaState).2).1 = .created ∧
     (attemptCreateApplication mondayMs
        (attemptCreateApplication mondayMs
          (attemptCreateApplication mondayMs quotaState).2).2).1 = .created) ∧
    ((attemptCreateApplication mondayMs
        (attemptCreateApplication mondayMs
          (attemptCreateApplication mondayMs quotaState).2).2).2.applications = 3 ∧
     (attemptCreateApplication mondayMs
        (attemptCreateApplication mondayMs
          (attemptCreateApplication mondayMs quotaState).2).2).2.user.weeklyApplications.count
        = 0 ∧
     (attemptCreateApplication mondayMs
        (attemptCreateApplication mondayMs
          (attemptCreateApplication mondayMs
            (attemptCreateApplication mondayMs quotaState).2).2).2).1 = .created ∧
     (attemptCreateApplication mondayMs
        (attemptCreateApplication mondayMs
          (attemptCreateApplication mondayMs
            (attemptCreateApplication mondayMs quotaState).2).2).2).2.applications = 4) := by
  decide

/-- C9: `calculateMatchScore` returns 0 for a referral without skills, and
otherwise `round (100 × matched / total)` computed exactly, where a
(lowercased) referral skill is matched iff it is a substring of, or
contains as a substring, some (lowercased) candidate skill; on
`["react","node"]` vs `["reactjs","python"]` the score is exactly 50. -/
theorem calculateMatchScore_round_spec (skills jobSeekerSkills : List String) :
    (skills.length = 0 → calculateMatchScore skills jobSeekerSkills = 0) ∧
    (0 < skills.length →
      (calculateMatchScore skills jobSeekerSkills : ℤ) =
        round ((100 * (((skills.map toLowerStr).filter (fun skill =>
            decide (SpecMatched (jobSeekerSkills.map toLowerStr) skill))).length : ℚ)) /
          (skills.length : ℚ))) ∧
    calculateMatchScore ["react", "node"] ["reactjs", "python"] = 50 := by
  refine ⟨?_, ?_, by decide⟩
  · intro h
    unfold calculateMatchScore
    rw [if_pos h]
  · intro h
    have h0 : ¬ skills.length = 0 := by omega
    have hunfold : calculateMatchScore skills jobSeekerSkills =
        jsRound
          (((skills.map toLowerStr).filter (fun skill =>
            (jobSeekerSkills.map toLowerStr).any (fun seekerSkill =>
              jsIncludes seekerSkill skill || jsIncludes skill seekerSkill))).length * 100)
          ((skills.map toLowerStr).length) := by
      unfold calculateMatchScore
      rw [if_neg h0]
    have hfilter :
        (skills.map toLowerStr).filter (fun skill =>
          (jobSeekerSkills.map toLowerStr).any (fun seekerSkill =>
            jsIncludes seekerSkill skill || jsIncludes skill seekerSkill)) =
        (skills.map toLowerStr).filter (fun skill =>
          decide (SpecMatched (jobSeekerSkills.map toLowerStr) skill)) := by
      apply List.filter_congr
      intro x _
      cases hb : (jobSeekerSkills.map toLowerStr).any (fun seekerSkill =>
          jsIncludes seekerSkill x || jsIncludes x seekerSkill) with
      | false =>
        symm
        rw [decide_eq_false_iff_not]
        intro hM
        have := (matched_iff _ _).mpr hM
        rw [hb] at this
        exact Bool.false_ne_true this
      | true =>
        symm
        rw [decide_eq_true_eq]
        exact (matched_iff _ _).mp hb
    have hlen : (skills.map toLowerStr).length = skills.length :=
      List.length_map _ _
    rw [hunfold, hfilter, hlen,
      jsRound_eq_round _ _ h]
    congr 1
    push_cast
    ring

/-- Witness for C9: the zero-skill branch applied at a concrete input. -/
theorem calculateMatchScore_round_spec_witness :
    calculateMatchScore [] ["python"] = 0 :=
  (calculateMatchScore_round_spec [] ["python"]).1 (by decide)

end IntraRefer
